import Mathlib

/-! Shallow embedding of the "stardust diary" star-field application: the
star-entity store and interaction handlers of src/App.tsx, the category
constants of src/constants.ts, and the nebula field generator of the
Nebula component (src/unnamed/part_002).  JavaScript Math.random() draws
are modelled as explicit real-valued inputs in [0,1); machine floats are
modelled as real numbers (rationals where the code is pure arithmetic).
-/

namespace Stardust

/-- Category identifiers are plain strings (src/unnamed/part_003:
export type Category = string). -/
abbrev Category := String

/-- CategoryInfo record (src/unnamed/part_003). -/
structure CategoryInfo where
  id : Category
  name : String
  color : String
  glow : String
  deriving DecidableEq

/-- PendingFragment record, as created in handleRealizeStardust
(src/App.tsx lines 233-236): id, text, category, entryId. -/
structure PendingFragment where
  id : String
  text : String
  category : Category
  entryId : String
  deriving DecidableEq

/-- StarPoint record (src/unnamed/part_003); position is a float triple,
modelled over the reals. -/
structure StarPoint where
  id : String
  entryId : String
  position : ℝ × ℝ × ℝ
  color : String
  content : String
  category : Category
  size : ℝ

/-- The React state of App (src/App.tsx lines 126-159) restricted to the
fields the store and interaction handlers read or write. -/
structure AppState where
  stars : List StarPoint
  pendingFragments : List PendingFragment
  categories : List CategoryInfo
  hoveredStarId : Option String
  activeCategory : Option Category
  dragHoverCategory : Option Category
  showDetailPanel : Bool
  historyOpen : Bool

/-- DEFAULT_CATEGORIES (src/constants.ts lines 4-9). -/
def DEFAULT_CATEGORIES : List CategoryInfo :=
  [ { id := "reading", name := "阅读", color := "#3b82f6", glow := "0 0 20px #3b82f6" },
    { id := "learning", name := "学习", color := "#f97316", glow := "0 0 20px #f97316" },
    { id := "outfit", name := "尝试", color := "#a855f7", glow := "0 0 20px #a855f7" },
    { id := "emotion", name := "情绪", color := "#ec4899", glow := "0 0 20px #ec4899" } ]

/-- NEBULA_PARTICLE_COUNT (src/constants.ts line 11). -/
def NEBULA_PARTICLE_COUNT : ℕ := 45000

/-- The Math.random() draws consumed by one call of spawnStar
(src/App.tsx lines 199-214), each uniform in [0,1), plus the random id
string produced by Math.random().toString(36).substr(2, 9). -/
structure SpawnRand where
  rRand : ℝ
  angleRand : ℝ
  yRand : ℝ
  sizeRand : ℝ
  idStr : String

/-- spawnStar (src/App.tsx lines 199-214).  In JS, when `categories` is
empty, `categories.find(...) || categories[0]` is undefined and reading
`.color` throws; the thrown case is modelled as `none`. -/
noncomputable def spawnStar (st : AppState) (content : String) (categoryId : Category)
    (entryId : String) (rnd : SpawnRand) : Option AppState :=
  ((st.categories.find? (fun c => c.id = categoryId)).orElse
      (fun _ => st.categories.head?)).map
    (fun categoryInfo =>
      let maxRadius : ℝ := 70
      let r : ℝ := rnd.rRand ^ (1.4 : ℝ) * maxRadius
      let angle : ℝ := rnd.angleRand * Real.pi * 2
      let x : ℝ := Real.cos angle * r
      let z : ℝ := Real.sin angle * r
      let y : ℝ := (rnd.yRand - 0.5) * 10
      let randomSize : ℝ := 1.4 + rnd.sizeRand * 0.8
      { st with stars := st.stars ++
        [{ id := rnd.idStr, entryId := entryId, position := (x, y, z),
           color := categoryInfo.color, content := content,
           category := categoryId, size := randomSize }] })

/-- deleteStar (src/App.tsx lines 216-219). -/
def deleteStar (st : AppState) (starId : String) : AppState :=
  { st with
    stars := st.stars.filter (fun s => s.id ≠ starId),
    hoveredStarId := if st.hoveredStarId = some starId then none else st.hoveredStarId }

/-- handleFragmentDrop (src/App.tsx lines 243-249).  A spawnStar failure
(empty category list) propagates as `none`: the pending list is then not
filtered, matching the JS exception aborting the handler. -/
noncomputable def handleFragmentDrop (st : AppState) (fragId : String) (category : Category)
    (entryId : String) (rnd : SpawnRand) : Option AppState :=
  match st.pendingFragments.find? (fun f => f.id = fragId) with
  | some frag =>
    (spawnStar st frag.text category entryId rnd).map
      (fun st2 => { st2 with
        pendingFragments := st2.pendingFragments.filter (fun f => f.id ≠ fragId) })
  | none => some st

/-- handleCategoryClick (src/App.tsx lines 172-181). -/
def handleCategoryClick (st : AppState) (catId : Category) : AppState :=
  if st.activeCategory = some catId then
    { st with activeCategory := none, showDetailPanel := false }
  else
    { st with activeCategory := some catId, showDetailPanel := false, historyOpen := false }

/-- Squared distance from the pointer to a category anchor center.  The
anchor is (id, centerX, centerY); the source compares
Math.hypot(dx, dy) (nonnegative) against the running minimum (also
nonnegative), an order-isomorphic comparison of the squares, so the
embedding works with squared distances throughout. -/
def dist2 (px py : ℚ) (a : Category × ℚ × ℚ) : ℚ :=
  (px - a.2.1) ^ 2 + (py - a.2.2) ^ 2

/-- The body of the forEach of updateNearestCategory (src/App.tsx lines
259-270), acting on the (nearestCat, minDistance) accumulator; distances
squared (see dist2). -/
def nearestStep (px py : ℚ) (acc : Option Category × ℚ) (a : Category × ℚ × ℚ) :
    Option Category × ℚ :=
  if dist2 px py a < acc.2 then (some a.1, dist2 px py a) else acc

/-- updateNearestCategory (src/App.tsx lines 255-273): nearestCat starts
as null, minDistance as 160 (squared here; see dist2). -/
def updateNearestCategory (anchors : List (Category × ℚ × ℚ)) (px py : ℚ) :
    Option Category :=
  (anchors.foldl (nearestStep px py) ((none : Option Category), (160 : ℚ) ^ 2)).1

/-- onDragEnd of a pending fragment (src/App.tsx lines 608-613): drop on
the current dragHoverCategory if set, then clear it. -/
noncomputable def onDragEnd (st : AppState) (fragId : String) (entryId : String)
    (rnd : SpawnRand) : Option AppState :=
  match st.dragHoverCategory with
  | some c =>
    (handleFragmentDrop st fragId c entryId rnd).map
      (fun st2 => { st2 with dragHoverCategory := none })
  | none => some { st with dragHoverCategory := none }

/-- Replace each maximal run of whitespace characters by one underscore:
the replace(\s+, _) of handleCreateCategory.  The Bool argument records
whether the previous character was whitespace (inside a run).
Char.isWhitespace covers the ASCII cases of the JS \s class
(space, tab, CR, LF). -/
def collapseWsAux : Bool → List Char → List Char
  | _, [] => []
  | prevWs, c :: rest =>
    if c.isWhitespace then
      (if prevWs then [] else ['_']) ++ collapseWsAux true rest
    else c :: collapseWsAux false rest

/-- Replace each maximal whitespace run by one underscore. -/
def collapseWs (l : List Char) : List Char := collapseWsAux false l

/-- JS String.toLowerCase, restricted to the ASCII range that the claims
exercise (Char.toLower lowercases A-Z). -/
def jsToLower (s : String) : String :=
  String.mk (s.toList.map Char.toLower)

/-- JS String.trim: strip whitespace from both ends. -/
def jsTrim (s : String) : String :=
  String.mk
    (((s.toList.dropWhile Char.isWhitespace).reverse.dropWhile
        Char.isWhitespace).reverse)

/-- The id derivation of handleCreateCategory (src/App.tsx line 280):
newCatName.toLowerCase().replace(\s+, _). -/
def normalizeId (s : String) : String :=
  String.mk (collapseWs (jsToLower s).toList)

/-- handleCreateCategory (src/App.tsx lines 275-284) acting on the
category list; the randomly drawn palette color is an input. -/
def handleCreateCategory (cats : List CategoryInfo) (newCatName : String)
    (randomColor : String) : List CategoryInfo :=
  if jsTrim newCatName = "" then cats
  else cats ++
    [{ id := normalizeId newCatName, name := jsTrim newCatName,
       color := randomColor, glow := "0 0 20px " ++ randomColor }]

/-- The dim-factor target (src/unnamed/part_002 line 362:
const dimFactor = activeCategory ? 0.2 : 1.0).  JS truthiness: null and
the empty string are both falsy. -/
def dimFactor (activeCategory : Option Category) : ℚ :=
  match activeCategory with
  | none => 1.0
  | some c => if c = "" then 1.0 else 0.2

/-- THREE.MathUtils.lerp. -/
def lerp (x y t : ℚ) : ℚ := x + (y - x) * t

/-- One per-frame smoothing step of the live dim uniform
(src/unnamed/part_002 line 440: lerp(current, dimFactor, 0.05)). -/
def dimStep (current target : ℚ) : ℚ := lerp current target 0.05

/-- An RGB color triple, as held by THREE.Color. -/
abbrev Color := ℝ × ℝ × ℝ

/-- new THREE.Color("#ffffff"). -/
def whiteColor : Color := (1, 1, 1)

/-- Value of one hexadecimal digit. -/
def hexVal (c : Char) : ℕ :=
  if '0' ≤ c ∧ c ≤ '9' then c.toNat - '0'.toNat
  else if 'a' ≤ c ∧ c ≤ 'f' then c.toNat - 'a'.toNat + 10
  else if 'A' ≤ c ∧ c ≤ 'F' then c.toNat - 'A'.toNat + 10
  else 0

/-- new THREE.Color(hexString) for a "#rrggbb" string: each channel is the
byte value divided by 255 (modulo THREE's color-space management, which no
claim depends on). -/
noncomputable def hexColor (s : String) : Color :=
  match s.toList with
  | ['#', r1, r2, g1, g2, b1, b2] =>
    (((hexVal r1 * 16 + hexVal r2 : ℕ) : ℝ) / 255,
     ((hexVal g1 * 16 + hexVal g2 : ℕ) : ℝ) / 255,
     ((hexVal b1 * 16 + hexVal b2 : ℕ) : ℝ) / 255)
  | _ => (1, 1, 1)

/-- The role of a background particle (spec §3); in the source this is the
boolean isTrajectoryRole branch of the generator loop. -/
inductive Role where
  | trajectoryHighlight
  | ambientFill
  deriving DecidableEq

/-- One generated particle: position, pre-brightness color, brightness,
flicker phase, size and role (spec §3 Particle; the source writes
color·brightness into the flat buffer). -/
structure Particle where
  pos : ℝ × ℝ × ℝ
  colorRGB : Color
  brightness : ℝ
  flickerPhase : ℝ
  size : ℝ
  role : Role

/-- Trajectory parameters (src/unnamed/part_002 lines 373-379). -/
structure Traj where
  radiusX : ℝ
  radiusZ : ℝ
  tiltX : ℝ
  tiltZ : ℝ
  tiltY : ℝ
  driftFreq : ℝ
  driftAmp : ℝ
  segmentFreq : ℝ
  segmentOffset : ℝ

/-- The nine Math.random() draws used to build one trajectory. -/
structure TrajRand where
  r1 : ℝ
  r2 : ℝ
  r3 : ℝ
  r4 : ℝ
  r5 : ℝ
  r6 : ℝ
  r7 : ℝ
  r8 : ℝ
  r9 : ℝ

/-- One trajectory from its random draws (src/unnamed/part_002 lines
373-379). -/
noncomputable def mkTraj (t : TrajRand) : Traj :=
  { radiusX := 18 + t.r1 * 32, radiusZ := 18 + t.r2 * 32,
    tiltX := (t.r3 - 0.5) * 0.45, tiltZ := (t.r4 - 0.5) * 0.45,
    tiltY := (t.r5 - 0.5) * 0.2, driftFreq := 0.5 + t.r6 * 0.5,
    driftAmp := 1.2 + t.r7 * 1.5, segmentFreq := 1.8 + t.r8 * 2.5,
    segmentOffset := t.r9 * Real.pi * 2 }

/-- The Math.random() draws consumed for one particle of the generator
loop, each uniform in [0,1).  The code draws them sequentially from one
stream; they are modelled as an independent per-particle supply, with the
branch-specific draws (angleU, jxU, jzU, jyU, rBaseU, yU) used by
whichever branch runs. -/
structure ParticleRand where
  roleSelector : ℝ
  brightnessU : ℝ
  sizeU : ℝ
  angleU : ℝ
  jxU : ℝ
  jzU : ℝ
  jyU : ℝ
  rBaseU : ℝ
  yU : ℝ
  flickerU : ℝ

/-- The base-radius draw of the AmbientFill branch (src/unnamed/part_002
line 411): 4.0 + Math.pow(u, 0.9) * 55.0. -/
noncomputable def ambientRBase (u : ℝ) : ℝ := 4.0 + u ^ (0.9 : ℝ) * 55.0

/-- Color lookup of the generator: catColors[i % catColors.length] ||
whiteColor (src/unnamed/part_002 lines 405 and 416).  In JS an empty list
gives index NaN hence undefined, so the fallback fires; here get? out of
range is none with the same white fallback. -/
def lookupCatColor (cats : List Color) (i : ℕ) : Color :=
  (cats.get? (i % cats.length)).getD whiteColor

/-- The TrajectoryHighlight branch of the generator loop
(src/unnamed/part_002 lines 390-408) for a given trajectory. -/
noncomputable def highlightParticle (cats : List Color) (traj : Traj) (i : ℕ)
    (pr : ParticleRand) : Particle :=
  let brightness0 : ℝ := 0.4 + pr.brightnessU * 0.6
  let particleSize0 : ℝ := 0.1 + pr.sizeU ^ (3 : ℕ) * 0.35
  let angle : ℝ := pr.angleU * Real.pi * 2
  let drift : ℝ := Real.sin (angle * traj.driftFreq) * traj.driftAmp
  let rawX : ℝ := Real.cos angle * (traj.radiusX + drift)
  let rawZ : ℝ := Real.sin angle * (traj.radiusZ + drift)
  let x : ℝ := rawX + (pr.jxU - 0.5) * 0.5
  let z : ℝ := rawZ + (pr.jzU - 0.5) * 0.5
  let y : ℝ := rawX * traj.tiltX + rawZ * traj.tiltZ +
    Real.sin angle * traj.tiltY * 5.0 + (pr.jyU - 0.5) * 1.5
  let maskValue : ℝ := Real.sin (angle * traj.segmentFreq + traj.segmentOffset)
  if maskValue > 0.15 then
    { pos := (x, y, z), colorRGB := whiteColor,
      brightness := brightness0 * (0.7 + maskValue * 0.6),
      flickerPhase := pr.flickerU * 100.0,
      size := particleSize0 * 1.4, role := Role.trajectoryHighlight }
  else
    { pos := (x, y, z), colorRGB := lookupCatColor cats i,
      brightness := brightness0 * 0.08,
      flickerPhase := pr.flickerU * 100.0,
      size := particleSize0 * 0.5, role := Role.trajectoryHighlight }

/-- The AmbientFill branch of the generator loop (src/unnamed/part_002
lines 409-417). -/
noncomputable def ambientParticle (cats : List Color) (i : ℕ)
    (pr : ParticleRand) : Particle :=
  let brightness0 : ℝ := 0.4 + pr.brightnessU * 0.6
  let particleSize0 : ℝ := 0.1 + pr.sizeU ^ (3 : ℕ) * 0.35
  let baseAngle : ℝ := pr.angleU * Real.pi * 2
  let rBase : ℝ := ambientRBase pr.rBaseU
  let angle : ℝ := baseAngle + rBase * 2.4 * 0.85
  let x : ℝ := Real.cos angle * rBase +
    (pr.jxU - 0.5) * (2.0 + (rBase / 65.0) ^ ((2.5 : ℝ)) * 12.0)
  let z : ℝ := Real.sin angle * rBase * 0.75 +
    (pr.jzU - 0.5) * (2.0 + (rBase / 65.0) ^ ((2.5 : ℝ)) * 12.0)
  let y : ℝ := (pr.yU - 0.6) *
    (7.0 * Real.cos (min 1.0 (rBase / 65.0 * 1.1) * Real.pi * 0.5))
  { pos := (x, y, z), colorRGB := lookupCatColor cats i,
    brightness := brightness0, flickerPhase := pr.flickerU * 100.0,
    size := particleSize0, role := Role.ambientFill }

/-- One iteration of the generator loop (src/unnamed/part_002 lines
381-422): role selection at probability threshold 0.12, round-robin
trajectory pick by particle index. -/
noncomputable def genParticle (cats : List Color) (trajs : Fin 7 → Traj) (i : ℕ)
    (pr : ParticleRand) : Particle :=
  if pr.roleSelector < 0.12 then
    highlightParticle cats (trajs ⟨i % 7, Nat.mod_lt i (by norm_num)⟩) i pr
  else
    ambientParticle cats i pr

/-- nebulaData (src/unnamed/part_002 lines 364-424): the full particle
population from the category list, the seven trajectories' draws and the
per-particle draws. -/
noncomputable def nebulaData (categories : List CategoryInfo)
    (trajRands : Fin 7 → TrajRand) (prands : ℕ → ParticleRand) : List Particle :=
  let catColors := categories.map (fun c => hexColor c.color)
  let trajectories := fun j => mkTraj (trajRands j)
  (List.range NEBULA_PARTICLE_COUNT).map
    (fun i => genParticle catColors trajectories i (prands i))

/-- A concrete category fixture for witnesses. -/
def catA : CategoryInfo :=
  { id := "a", name := "A", color := "#ffffff", glow := "0 0 20px #ffffff" }

/-- A concrete star fixture for witnesses. -/
def star1 : StarPoint :=
  { id := "s1", entryId := "e1", position := (0, 0, 0), color := "#ffffff",
    content := "hello", category := "a", size := 1 }

/-- A concrete pending-fragment fixture for witnesses. -/
def frag1 : PendingFragment :=
  { id := "f1", text := "text1", category := "a", entryId := "e1" }

/-- A concrete random-draw fixture for witnesses (all draws 0). -/
def rnd0 : SpawnRand :=
  { rRand := 0, angleRand := 0, yRand := 0, sizeRand := 0, idStr := "sid" }

/-- A concrete app-state fixture for witnesses. -/
def st1 : AppState :=
  { stars := [star1], pendingFragments := [frag1], categories := [catA],
    hoveredStarId := some "s1", activeCategory := none,
    dragHoverCategory := none, showDetailPanel := false, historyOpen := false }

/-- A concrete per-particle draw fixture for witnesses (all draws 0). -/
def pr0 : ParticleRand :=
  { roleSelector := 0, brightnessU := 0, sizeU := 0, angleU := 0, jxU := 0,
    jzU := 0, jyU := 0, rBaseU := 0, yU := 0, flickerU := 0 }

/-- A concrete trajectory draw fixture for witnesses (all draws 0). -/
def trajRand0 : TrajRand :=
  { r1 := 0, r2 := 0, r3 := 0, r4 := 0, r5 := 0, r6 := 0, r7 := 0, r8 := 0,
    r9 := 0 }

/-- C5: the dim-factor target is 0.2 when a (nonempty-id) category is
active and 1.0 when none is, and one per-frame lerp-0.05 smoothing step
starting from 1.0 with target 0.2 lands strictly between 0.2 and 1.0
(never snaps to the target). -/
theorem dimFactor_spec (c : Category) (hc : c ≠ "") :
    dimFactor (some c) = 0.2 ∧ dimFactor none = 1 ∧
    0.2 < dimStep 1 (dimFactor (some c)) ∧ dimStep 1 (dimFactor (some c)) < 1 := by
  refine ⟨by simp [dimFactor, hc], by norm_num [dimFactor], ?_, ?_⟩ <;>
    norm_num [dimStep, lerp, dimFactor, hc]

/-- Witness for dimFactor_spec at the category id "reading". -/
theorem dimFactor_spec_witness :
    ("reading" : String) ≠ "" ∧
    (dimFactor (some "reading") = 0.2 ∧ dimFactor none = 1 ∧
     0.2 < dimStep 1 (dimFactor (some "reading")) ∧
     dimStep 1 (dimFactor (some "reading")) < 1) :=
  ⟨by decide, dimFactor_spec "reading" (by decide)⟩

/-- C6: clicking the active category clears activeCategory, clicking a
different (or no-active) category sets it, and two clicks of the same
category starting from none return activeCategory to none. -/
theorem handleCategoryClick_toggle (st : AppState) (catId : Category) :
    (st.activeCategory = some catId →
      (handleCategoryClick st catId).activeCategory = none) ∧
    (st.activeCategory ≠ some catId →
      (handleCategoryClick st catId).activeCategory = some catId) ∧
    (st.activeCategory = none →
      (handleCategoryClick (handleCategoryClick st catId) catId).activeCategory
        = none) := by
  refine ⟨fun h => ?_, fun h => ?_, fun h => ?_⟩
  · simp [handleCategoryClick, h]
  · simp [handleCategoryClick, h]
  · have h1 : st.activeCategory ≠ some catId := by simp [h]
    simp [handleCategoryClick, h1]

/-- C8: deleteStar removes every star with the given id, keeps every
other star, clears hoveredStarId exactly when it equals the deleted id,
and is a no-op on the star list when the id is not present. -/
theorem deleteStar_spec (st : AppState) (starId : String) :
    (∀ s ∈ (deleteStar st starId).stars, s.id ≠ starId) ∧
    (∀ s ∈ st.stars, s.id ≠ starId → s ∈ (deleteStar st starId).stars) ∧
    (deleteStar st starId).hoveredStarId =
      (if st.hoveredStarId = some starId then none else st.hoveredStarId) ∧
    ((∀ s ∈ st.stars, s.id ≠ starId) → (deleteStar st starId).stars = st.stars) := by
  refine ⟨?_, ?_, rfl, ?_⟩
  · intro s hs
    simp only [deleteStar, List.mem_filter, decide_eq_true_eq] at hs
    exact hs.2
  · intro s hs h
    simp only [deleteStar, List.mem_filter, decide_eq_true_eq]
    exact ⟨hs, h⟩
  · intro h
    simp only [deleteStar]
    exact List.filter_eq_self.mpr (fun s hs => by simpa using h s hs)

/-- C9 counterexample: creating a category named "reading" on top of the
default set produces two records with id "reading": handleCreateCategory
performs no duplicate-id check. -/
theorem createCategory_dup :
    ¬ ((handleCreateCategory DEFAULT_CATEGORIES "reading" "#4ade80").map
        CategoryInfo.id).Nodup := by
  decide

/-- C9 (amended): the default category list has pairwise-distinct ids,
and handleCreateCategory preserves distinctness whenever the derived id
of the new name is not already present. -/
theorem createCategory_nodup (cats : List CategoryInfo) (name color : String)
    (hnodup : (cats.map CategoryInfo.id).Nodup)
    (hfresh : normalizeId name ∉ cats.map CategoryInfo.id) :
    (DEFAULT_CATEGORIES.map CategoryInfo.id).Nodup ∧
    ((handleCreateCategory cats name color).map CategoryInfo.id).Nodup := by
  refine ⟨by decide, ?_⟩
  unfold handleCreateCategory
  split
  · exact hnodup
  · rw [List.map_append, List.nodup_append_comm]
    simp only [List.map_cons, List.map_nil, List.singleton_append, List.nodup_cons]
    exact ⟨hfresh, hnodup⟩

/-- Witness for createCategory_nodup: creating "Gaming" on the default
set keeps the ids distinct. -/
theorem createCategory_nodup_witness :
    (DEFAULT_CATEGORIES.map CategoryInfo.id).Nodup ∧
    normalizeId "Gaming" ∉ DEFAULT_CATEGORIES.map CategoryInfo.id ∧
    ((DEFAULT_CATEGORIES.map CategoryInfo.id).Nodup ∧
     ((handleCreateCategory DEFAULT_CATEGORIES "Gaming" "#4ade80").map
        CategoryInfo.id).Nodup) :=
  ⟨by decide, by decide,
   createCategory_nodup DEFAULT_CATEGORIES "Gaming" "#4ade80" (by decide) (by decide)⟩

/-- Invariant of the forEach accumulator of updateNearestCategory: the
final minimum never exceeds the initial one or any seen distance; if no
anchor strictly beats the initial minimum the accumulator is unchanged;
otherwise the result records some anchor's id and distance, strictly
below the initial minimum. -/
theorem nearest_fold (px py : ℚ) :
    ∀ (l : List (Category × ℚ × ℚ)) (acc : Option Category × ℚ),
      (l.foldl (nearestStep px py) acc).2 ≤ acc.2 ∧
      (∀ a ∈ l, (l.foldl (nearestStep px py) acc).2 ≤ dist2 px py a) ∧
      ((∀ a ∈ l, ¬ dist2 px py a < acc.2) → l.foldl (nearestStep px py) acc = acc) ∧
      (l.foldl (nearestStep px py) acc = acc ∨
        ∃ a ∈ l, (l.foldl (nearestStep px py) acc).1 = some a.1 ∧
          (l.foldl (nearestStep px py) acc).2 = dist2 px py a ∧
          (l.foldl (nearestStep px py) acc).2 < acc.2) := by
  intro l
  induction l with
  | nil => intro acc; simp
  | cons a l ih =>
    intro acc
    rw [List.foldl_cons]
    by_cases h : dist2 px py a < acc.2
    · have hstep : nearestStep px py acc a = (some a.1, dist2 px py a) := by
        simp [nearestStep, h]
      rw [hstep]
      obtain ⟨ih1, ih2, ih3, ih4⟩ := ih (some a.1, dist2 px py a)
      refine ⟨le_trans ih1 (le_of_lt h), ?_, ?_, ?_⟩
      · intro b hb
        rcases List.mem_cons.mp hb with rfl | hb
        · exact ih1
        · exact ih2 b hb
      · intro hall
        exact absurd h (hall a (List.mem_cons_self a l))
      · rcases ih4 with heq | ⟨b, hb, hb1, hb2, hb3⟩
        · right
          refine ⟨a, List.mem_cons_self a l, ?_, ?_, ?_⟩ <;> rw [heq]
          exact h
        · right
          exact ⟨b, List.mem_cons_of_mem a hb, hb1, hb2, lt_trans hb3 h⟩
    · have hstep : nearestStep px py acc a = acc := by
        simp [nearestStep, h]
      rw [hstep]
      obtain ⟨ih1, ih2, ih3, ih4⟩ := ih acc
      refine ⟨ih1, ?_, ?_, ?_⟩
      · intro b hb
        rcases List.mem_cons.mp hb with rfl | hb
        · exact le_trans ih1 (not_lt.mp h)
        · exact ih2 b hb
      · intro hall
        exact ih3 (fun b hb => hall b (List.mem_cons_of_mem a hb))
      · rcases ih4 with heq | ⟨b, hb, hrest⟩
        · exact Or.inl heq
        · exact Or.inr ⟨b, List.mem_cons_of_mem a hb, hrest⟩

/-- C7: during a drag the target is none exactly when no category anchor
lies strictly within 160 px of the pointer (squared-distance comparison,
see dist2); a resolved target is an anchor's id at minimal distance,
strictly within the threshold; and drag-end with target none leaves the
pending-fragment list and the star list unchanged. -/
theorem dragTarget_spec (anchors : List (Category × ℚ × ℚ)) (px py : ℚ)
    (st : AppState) (fragId entryId : String) (rnd : SpawnRand) :
    (updateNearestCategory anchors px py = none ↔
      ∀ a ∈ anchors, ¬ dist2 px py a < 160 ^ 2) ∧
    (∀ c, updateNearestCategory anchors px py = some c →
      ∃ a ∈ anchors, a.1 = c ∧ dist2 px py a < 160 ^ 2 ∧
        ∀ b ∈ anchors, dist2 px py a ≤ dist2 px py b) ∧
    (st.dragHoverCategory = none →
      ∃ st2, onDragEnd st fragId entryId rnd = some st2 ∧
        st2.pendingFragments = st.pendingFragments ∧ st2.stars = st.stars) := by
  obtain ⟨h1, h2, h3, h4⟩ :=
    nearest_fold px py anchors ((none : Option Category), (160 : ℚ) ^ 2)
  refine ⟨⟨?_, ?_⟩, ?_, ?_⟩
  · intro hnone a ha hlt
    rcases h4 with heq | ⟨b, hb, hb1, hb2, hb3⟩
    · have := h2 a ha
      rw [heq] at this
      exact absurd hlt (not_lt.mpr this)
    · unfold updateNearestCategory at hnone
      rw [hnone] at hb1
      cases hb1
  · intro hall
    unfold updateNearestCategory
    rw [h3 (fun a ha => hall a ha)]
  · intro c hc
    unfold updateNearestCategory at hc
    rcases h4 with heq | ⟨b, hb, hb1, hb2, hb3⟩
    · rw [heq] at hc
      cases hc
    · rw [hb1] at hc
      injection hc with hc
      refine ⟨b, hb, hc, ?_, ?_⟩
      · rw [← hb2]
        exact hb3
      · intro d hd
        rw [← hb2]
        exact h2 d hd
  · intro hnone
    refine ⟨{ st with dragHoverCategory := none }, ?_, rfl, rfl⟩
    simp [onDragEnd, hnone]

/-- Removing by id from a list of pending fragments with pairwise
distinct ids drops exactly one element. -/
theorem filter_ne_length (x : PendingFragment) :
    ∀ l : List PendingFragment, (l.map PendingFragment.id).Nodup → x ∈ l →
      (l.filter (fun f => f.id ≠ x.id)).length + 1 = l.length := by
  intro l
  induction l with
  | nil => intro _ h; cases h
  | cons a l ih =>
    intro hnodup hmem
    rw [List.map_cons, List.nodup_cons] at hnodup
    obtain ⟨hnotin, hnd⟩ := hnodup
    rcases List.mem_cons.mp hmem with rfl | hmem
    · have hdrop : (x :: l).filter (fun f => f.id ≠ x.id) =
          l.filter (fun f => f.id ≠ x.id) := by
        simp [List.filter_cons]
      have hall : ∀ f ∈ l, f.id ≠ x.id := by
        intro f hf he
        exact hnotin (he ▸ List.mem_map_of_mem PendingFragment.id hf)
      rw [hdrop, List.filter_eq_self.mpr (fun f hf => by simpa using hall f hf)]
      simp
    · have hne : a.id ≠ x.id := by
        intro he
        exact hnotin (he ▸ List.mem_map_of_mem PendingFragment.id hmem)
      rw [List.filter_cons_of_pos (by simpa using hne)]
      have := ih hnd hmem
      simp only [List.length_cons]
      omega

/-- C1: dropping a pending fragment (present in the list, with pairwise
distinct pending ids, and a nonempty category list) on a category cat
appends exactly one new star whose category is cat and removes exactly
the fragment with the dropped id, so the star count rises by 1 and the
pending count falls by 1. -/
theorem promote_spec (st : AppState) (frag : PendingFragment) (cat : Category)
    (entryId : String) (rnd : SpawnRand)
    (hmem : frag ∈ st.pendingFragments)
    (hnodup : (st.pendingFragments.map PendingFragment.id).Nodup)
    (hcats : st.categories ≠ []) :
    ∃ st2 s, handleFragmentDrop st frag.id cat entryId rnd = some st2 ∧
      st2.stars = st.stars ++ [s] ∧ s.category = cat ∧
      st2.stars.length = st.stars.length + 1 ∧
      st2.pendingFragments = st.pendingFragments.filter (fun f => f.id ≠ frag.id) ∧
      frag ∉ st2.pendingFragments ∧
      st2.pendingFragments.length + 1 = st.pendingFragments.length := by
  obtain ⟨g, hg⟩ : ∃ g, st.pendingFragments.find? (fun f => f.id = frag.id) = some g :=
    Option.isSome_iff_exists.mp (List.find?_isSome.mpr ⟨frag, hmem, by simp⟩)
  obtain ⟨c0, rest, hc⟩ : ∃ c0 rest, st.categories = c0 :: rest := by
    cases hcase : st.categories with
    | nil => exact absurd hcase hcats
    | cons c0 rest => exact ⟨c0, rest, rfl⟩
  obtain ⟨ci, hci⟩ : ∃ ci, (st.categories.find? (fun c => c.id = cat)).orElse
      (fun _ => st.categories.head?) = some ci := by
    cases hf : st.categories.find? (fun c => c.id = cat) with
    | some ci => exact ⟨ci, by simp [Option.orElse, hf]⟩
    | none => exact ⟨c0, by simp [Option.orElse, hf, hc]⟩
  have hdrop : handleFragmentDrop st frag.id cat entryId rnd =
      some { st with
        stars := st.stars ++
          [{ id := rnd.idStr, entryId := entryId,
             position := (Real.cos (rnd.angleRand * Real.pi * 2) *
                            (rnd.rRand ^ (1.4 : ℝ) * 70),
                          (rnd.yRand - 0.5) * 10,
                          Real.sin (rnd.angleRand * Real.pi * 2) *
                            (rnd.rRand ^ (1.4 : ℝ) * 70)),
             color := ci.color, content := g.text, category := cat,
             size := 1.4 + rnd.sizeRand * 0.8 }],
        pendingFragments :=
          st.pendingFragments.filter (fun f => f.id ≠ frag.id) } := by
    have hspawn : spawnStar st g.text cat entryId rnd =
        some { st with
          stars := st.stars ++
            [{ id := rnd.idStr, entryId := entryId,
               position := (Real.cos (rnd.angleRand * Real.pi * 2) *
                              (rnd.rRand ^ (1.4 : ℝ) * 70),
                            (rnd.yRand - 0.5) * 10,
                            Real.sin (rnd.angleRand * Real.pi * 2) *
                              (rnd.rRand ^ (1.4 : ℝ) * 70)),
               color := ci.color, content := g.text, category := cat,
               size := 1.4 + rnd.sizeRand * 0.8 }] } := by
      unfold spawnStar
      rw [hci]
      rfl
    rw [handleFragmentDrop, hg]
    simp only [hspawn, Option.map_some']
  refine ⟨_, _, hdrop, rfl, rfl, by simp, rfl, ?_, ?_⟩
  · simp only [List.mem_filter, decide_eq_true_eq]
    intro h
    exact h.2 rfl
  · exact filter_ne_length frag st.pendingFragments hnodup hmem

/-- Witness for promote_spec: one pending fragment dropped on category
"a" in the concrete fixture state. -/
theorem promote_spec_witness :
    frag1 ∈ st1.pendingFragments ∧
    (st1.pendingFragments.map PendingFragment.id).Nodup ∧
    st1.categories ≠ [] ∧
    (∃ st2 s, handleFragmentDrop st1 frag1.id "a" "e1" rnd0 = some st2 ∧
      st2.stars = st1.stars ++ [s] ∧ s.category = "a" ∧
      st2.stars.length = st1.stars.length + 1 ∧
      st2.pendingFragments =
        st1.pendingFragments.filter (fun f => f.id ≠ frag1.id) ∧
      frag1 ∉ st2.pendingFragments ∧
      st2.pendingFragments.length + 1 = st1.pendingFragments.length) :=
  ⟨by simp [st1], by simp [st1], by simp [st1],
   promote_spec st1 frag1 "a" "e1" rnd0 (by simp [st1]) (by simp [st1])
     (by simp [st1])⟩

/-- C2: a generated particle's role is TrajectoryHighlight exactly when
its uniform role-selector draw is below 0.12, and a highlight particle is
built from trajectory number (index mod 7) of the 7 trajectories. -/
theorem roleAssignment_spec (cats : List Color) (trajs : Fin 7 → Traj) (i : ℕ)
    (pr : ParticleRand) :
    ((genParticle cats trajs i pr).role = Role.trajectoryHighlight ↔
      pr.roleSelector < 0.12) ∧
    (pr.roleSelector < 0.12 →
      genParticle cats trajs i pr =
        highlightParticle cats (trajs ⟨i % 7, Nat.mod_lt i (by norm_num)⟩) i pr) := by
  refine ⟨⟨?_, ?_⟩, ?_⟩
  · intro h
    by_contra hn
    rw [genParticle, if_neg hn] at h
    simp only [ambientParticle] at h
    cases h
  · intro h
    rw [genParticle, if_pos h]
    simp only [highlightParticle]
    split <;> rfl
  · intro h
    rw [genParticle, if_pos h]

/-- C3: with an empty category list the generator still yields all 45000
particles (it is total, with no failing branch), and every particle's
category-color lookup falls back to white, in the dim trajectory branch
and the ambient branch alike. -/
theorem emptyCategories_spec (trajRands : Fin 7 → TrajRand)
    (prands : ℕ → ParticleRand) :
    (nebulaData [] trajRands prands).length = NEBULA_PARTICLE_COUNT ∧
    ∀ p ∈ nebulaData [] trajRands prands, p.colorRGB = whiteColor := by
  constructor
  · simp [nebulaData]
  · intro p hp
    simp only [nebulaData, List.map_nil, List.mem_map, List.mem_range] at hp
    obtain ⟨i, -, rfl⟩ := hp
    rw [genParticle]
    split
    · simp only [highlightParticle]
      split
      · rfl
      · simp [lookupCatColor]
    · simp [ambientParticle, lookupCatColor]

/-- C10: spawnStar called with an unknown category id on a nonempty
category list still creates one star: its category field keeps the given
id, its color is copied from the first category, and its position
satisfies x² + z² ≤ 70² and |y| ≤ 5 (for draws in [0,1)). -/
theorem spawnStar_unknown_category (st : AppState) (content : String)
    (categoryId : Category) (entryId : String) (rnd : SpawnRand)
    (c0 : CategoryInfo) (rest : List CategoryInfo)
    (hc : st.categories = c0 :: rest)
    (hunknown : ∀ ci ∈ st.categories, ci.id ≠ categoryId)
    (hr0 : 0 ≤ rnd.rRand) (hr1 : rnd.rRand < 1)
    (hy0 : 0 ≤ rnd.yRand) (hy1 : rnd.yRand < 1) :
    ∃ s, spawnStar st content categoryId entryId rnd =
        some { st with stars := st.stars ++ [s] } ∧
      s.category = categoryId ∧ s.color = c0.color ∧
      s.position.1 ^ 2 + s.position.2.2 ^ 2 ≤ 70 ^ 2 ∧ |s.position.2.1| ≤ 5 := by
  have hfind : st.categories.find? (fun c => c.id = categoryId) = none :=
    List.find?_eq_none.mpr (fun ci hci => by simpa using hunknown ci hci)
  have hci : (st.categories.find? (fun c => c.id = categoryId)).orElse
      (fun _ => st.categories.head?) = some c0 := by
    rw [hfind]
    simp [Option.orElse, hc]
  refine ⟨{ id := rnd.idStr, entryId := entryId,
            position := (Real.cos (rnd.angleRand * Real.pi * 2) *
                           (rnd.rRand ^ (1.4 : ℝ) * 70),
                         (rnd.yRand - 0.5) * 10,
                         Real.sin (rnd.angleRand * Real.pi * 2) *
                           (rnd.rRand ^ (1.4 : ℝ) * 70)),
            color := c0.color, content := content, category := categoryId,
            size := 1.4 + rnd.sizeRand * 0.8 }, ?_, rfl, rfl, ?_, ?_⟩
  · unfold spawnStar
    rw [hci]
    rfl
  · show (Real.cos (rnd.angleRand * Real.pi * 2) *
        (rnd.rRand ^ (1.4 : ℝ) * 70)) ^ 2 +
      (Real.sin (rnd.angleRand * Real.pi * 2) *
        (rnd.rRand ^ (1.4 : ℝ) * 70)) ^ 2 ≤ 70 ^ 2
    have hrpow0 : (0 : ℝ) ≤ rnd.rRand ^ (1.4 : ℝ) := Real.rpow_nonneg hr0 _
    have hrpow1 : rnd.rRand ^ (1.4 : ℝ) ≤ 1 :=
      Real.rpow_le_one hr0 (le_of_lt hr1) (by norm_num)
    have hR0 : (0 : ℝ) ≤ rnd.rRand ^ (1.4 : ℝ) * 70 :=
      mul_nonneg hrpow0 (by norm_num)
    have hR1 : rnd.rRand ^ (1.4 : ℝ) * 70 ≤ 70 := by nlinarith
    have hpyth : Real.cos (rnd.angleRand * Real.pi * 2) ^ 2 +
        Real.sin (rnd.angleRand * Real.pi * 2) ^ 2 = 1 :=
      Real.cos_sq_add_sin_sq _
    calc (Real.cos (rnd.angleRand * Real.pi * 2) *
            (rnd.rRand ^ (1.4 : ℝ) * 70)) ^ 2 +
          (Real.sin (rnd.angleRand * Real.pi * 2) *
            (rnd.rRand ^ (1.4 : ℝ) * 70)) ^ 2
        = (Real.cos (rnd.angleRand * Real.pi * 2) ^ 2 +
            Real.sin (rnd.angleRand * Real.pi * 2) ^ 2) *
            (rnd.rRand ^ (1.4 : ℝ) * 70) ^ 2 := by ring
      _ = (rnd.rRand ^ (1.4 : ℝ) * 70) ^ 2 := by rw [hpyth, one_mul]
      _ ≤ 70 ^ 2 := pow_le_pow_left₀ hR0 hR1 2
  · show |(rnd.yRand - 0.5) * 10| ≤ 5
    rw [abs_le]
    constructor <;> nlinarith

/-- Witness for spawnStar_unknown_category: dropping on the unknown id
"zzz" with the single category fixture and all-zero draws. -/
theorem spawnStar_unknown_category_witness :
    st1.categories = catA :: [] ∧ (∀ ci ∈ st1.categories, ci.id ≠ "zzz") ∧
    (0 : ℝ) ≤ rnd0.rRand ∧ rnd0.rRand < 1 ∧
    (0 : ℝ) ≤ rnd0.yRand ∧ rnd0.yRand < 1 ∧
    (∃ s, spawnStar st1 "c" "zzz" "e" rnd0 =
        some { st1 with stars := st1.stars ++ [s] } ∧
      s.category = "zzz" ∧ s.color = catA.color ∧
      s.position.1 ^ 2 + s.position.2.2 ^ 2 ≤ 70 ^ 2 ∧ |s.position.2.1| ≤ 5) :=
  ⟨rfl, by decide, by norm_num [rnd0], by norm_num [rnd0], by norm_num [rnd0],
   by norm_num [rnd0],
   spawnStar_unknown_category st1 "c" "zzz" "e" rnd0 catA [] rfl (by decide)
     (by norm_num [rnd0]) (by norm_num [rnd0]) (by norm_num [rnd0])
     (by norm_num [rnd0])⟩

/-- The set of draws u in [0,1) whose ambient base radius stays at or
below 4 + 55·t is exactly the interval [0, t^(10/9)], for t in (0,1);
its Lebesgue measure is t^(10/9). -/
theorem ambientRBase_cdf_volume (t : ℝ) (h0 : 0 < t) (h1 : t < 1) :
    (MeasureTheory.volume {u : ℝ | u ∈ Set.Ico (0 : ℝ) 1 ∧
        ambientRBase u ≤ 4 + 55 * t}).toReal = t ^ ((10 : ℝ) / 9) := by
  have hseteq : {u : ℝ | u ∈ Set.Ico (0 : ℝ) 1 ∧ ambientRBase u ≤ 4 + 55 * t}
      = Set.Icc 0 (t ^ ((10 : ℝ) / 9)) := by
    ext u
    simp only [Set.mem_setOf_eq, Set.mem_Ico, Set.mem_Icc, ambientRBase]
    constructor
    · rintro ⟨⟨hu0, hu1⟩, hle⟩
      refine ⟨hu0, ?_⟩
      have h9 : u ^ (0.9 : ℝ) ≤ t := by linarith
      calc u = u ^ (1 : ℝ) := (Real.rpow_one u).symm
        _ = u ^ ((0.9 : ℝ) * ((10 : ℝ) / 9)) := by norm_num
        _ = (u ^ (0.9 : ℝ)) ^ ((10 : ℝ) / 9) := Real.rpow_mul hu0 _ _
        _ ≤ t ^ ((10 : ℝ) / 9) :=
          Real.rpow_le_rpow (Real.rpow_nonneg hu0 _) h9 (by norm_num)
    · rintro ⟨hu0, hule⟩
      have ht10 : t ^ ((10 : ℝ) / 9) < 1 :=
        Real.rpow_lt_one (le_of_lt h0) h1 (by norm_num)
      refine ⟨⟨hu0, lt_of_le_of_lt hule ht10⟩, ?_⟩
      have h9 : u ^ (0.9 : ℝ) ≤ t := by
        calc u ^ (0.9 : ℝ) ≤ (t ^ ((10 : ℝ) / 9)) ^ (0.9 : ℝ) :=
              Real.rpow_le_rpow hu0 hule (by norm_num)
          _ = t ^ (((10 : ℝ) / 9) * (0.9 : ℝ)) := (Real.rpow_mul (le_of_lt h0) _ _).symm
          _ = t ^ (1 : ℝ) := by norm_num
          _ = t := Real.rpow_one t
      linarith
  rw [hseteq, Real.volume_Icc, sub_zero]
  exact ENNReal.toReal_ofReal (Real.rpow_nonneg (le_of_lt h0) _)

/-- C4 (amended): the radius draw 4 + pow(u, 0.9)·55 places strictly
LESS probability mass on small radii than a uniform radius draw over the
same range: for every t in (0,1) the probability that the drawn radius is
at most 4 + 55·t equals t^(10/9), which is strictly below t (the 0.9
power biases radii toward the rim relative to a uniform radius draw). -/
theorem ambientRadius_centerBias (t : ℝ) (h0 : 0 < t) (h1 : t < 1) :
    (MeasureTheory.volume {u : ℝ | u ∈ Set.Ico (0 : ℝ) 1 ∧
        ambientRBase u ≤ 4 + 55 * t}).toReal < t := by
  rw [ambientRBase_cdf_volume t h0 h1]
  calc t ^ ((10 : ℝ) / 9) < t ^ (1 : ℝ) :=
        Real.rpow_lt_rpow_of_exponent_gt h0 h1 (by norm_num)
    _ = t := Real.rpow_one t

/-- C4 counterexample: at t = 1/2 the probability that the drawn radius
is at most 4 + 55·(1/2) is (1/2)^(10/9) < 1/2, refuting the claimed
lower bound by t. -/
theorem ambientRadius_centerBias_cex :
    ¬ ((1 : ℝ) / 2 ≤ (MeasureTheory.volume {u : ℝ | u ∈ Set.Ico (0 : ℝ) 1 ∧
        ambientRBase u ≤ 4 + 55 * ((1 : ℝ) / 2)}).toReal) := by
  rw [ambientRBase_cdf_volume (1 / 2) (by norm_num) (by norm_num)]
  push_neg
  calc ((1 : ℝ) / 2) ^ ((10 : ℝ) / 9) < ((1 : ℝ) / 2) ^ (1 : ℝ) :=
        Real.rpow_lt_rpow_of_exponent_gt (by norm_num) (by norm_num) (by norm_num)
    _ = 1 / 2 := Real.rpow_one _

/-- Witness for ambientRadius_centerBias at t = 1/4. -/
theorem ambientRadius_centerBias_witness :
    (0 : ℝ) < 1 / 4 ∧ (1 : ℝ) / 4 < 1 ∧
    (MeasureTheory.volume {u : ℝ | u ∈ Set.Ico (0 : ℝ) 1 ∧
        ambientRBase u ≤ 4 + 55 * ((1 : ℝ) / 4)}).toReal < 1 / 4 :=
  ⟨by norm_num, by norm_num,
   ambientRadius_centerBias (1 / 4) (by norm_num) (by norm_num)⟩

end Stardust
